import Mathlib

/-!
Verification of the blinkMic foreground script (`src/foreground.js`).

The source drives a blink(1) USB HID light from a Google Meet page.  The
development below is a shallow embedding of the second (current) revision of
`foreground.js`: the `Blink` class (device link, color codec, attention
pattern) and the `MeetWrapper` class (presence observer, mute-attempt
observer, mute-state check).

Modelling conventions:
  * JavaScript `undefined`/`null` values become `Option`.
  * A method call is a pure function from its inputs (including the fields of
    `this` that it reads) to a `CallResult`: the list of observable effects it
    performs in order, the JS completion (normal return or thrown error), and
    the `#device` field after the call.
  * The outcome of `device.sendFeatureReport` is an input (`sendOk`): the
    source catches and logs a transport failure, so both outcomes are modelled.
  * `await this.sleep(ms)` is a suspension point at which the environment may
    change the device handle; `signalAtention` therefore reads the handle for
    its i-th device operation from an oracle `devAt i`.
  * JS numbers are binary64 floats; `parseInt` results above 2^53 round.  The
    model uses exact integers.  Every theorem below evaluates the codec only
    through `ToInt32` masks of values below 2^24, where float and exact
    semantics agree, or states a range fact that holds for any integer.
-/

namespace BlinkMic

/-- A HID device handle as the script sees it: `opened`, `vendorId`,
`productId`. -/
structure Device where
  opened : Bool
  vendorId : Nat
  productId : Nat
deriving Repr, DecidableEq

/-- An RGB triple, the result of `hexToRgbArray` and input of
`fadeToColor([r, g, b])`. -/
structure Rgb where
  r : Nat
  g : Nat
  b : Nat
deriving Repr, DecidableEq

/-- A thrown JavaScript error: its `name` and `message`. -/
structure JsError where
  name : String
  message : String
deriving Repr, DecidableEq

/-- Observable effects of the script, in program order: HID feature reports,
console logging, timer waits, and writes to the `#isInAPattern` flag. -/
inductive Effect where
  | sendFeatureReport (reportId : Nat) (data : List Nat)
  | log (msg : String)
  | logError (msg : String)
  | sleep (ms : Nat)
  | lockSet (value : Bool)
deriving Repr, DecidableEq

/-- True on the `#isInAPattern` writes, false on every other effect. -/
def Effect.isLock : Effect → Bool
  | .lockSet _ => true
  | _ => false

deriving instance DecidableEq for Except

/-- Result of one method call: its effect trace, its completion (normal or
thrown `JsError`), and the `#device` field after the call. -/
structure CallResult where
  trace : List Effect
  result : Except JsError Unit
  device : Option Device
deriving Repr, DecidableEq

/-- `get isConnected()`: `this.#device?.opened ? true : false`. -/
def isConnected (dev : Option Device) : Bool :=
  match dev with
  | some d => d.opened
  | none => false

/-- `#readyOrThrow()`: throws `Error` with `name = 'Blink'`,
`message = 'Not connected.'` unless `this.#device?.opened`. -/
def readyOrThrow (dev : Option Device) : Except JsError Unit :=
  if isConnected dev then .ok ()
  else .error { name := "Blink", message := "Not connected." }

/-- The 8-byte feature-report payload `Uint8Array.from([0x63, r, g, b, 0x00,
0x10, 0x00, 0x00])`; `Uint8Array.from` coerces each entry modulo 256. -/
def fadePayload (c : Rgb) : List Nat :=
  [0x63, c.r % 256, c.g % 256, c.b % 256, 0x00, 0x10, 0x00, 0x00]

/-- `fadeToColor([r, g, b])`: `#readyOrThrow()`, then
`sendFeatureReport(1, data)` inside a `try` whose `catch` only logs.
`sendOk` is the transport outcome of the send. -/
def fadeToColor (dev : Option Device) (sendOk : Bool) (c : Rgb) : CallResult :=
  match readyOrThrow dev with
  | .error e => { trace := [], result := .error e, device := dev }
  | .ok _ =>
    let data := fadePayload c
    if sendOk then
      { trace := [.sendFeatureReport 1 data], result := .ok (), device := dev }
    else
      { trace := [.sendFeatureReport 1 data, .logError "fadeToColor: failed:"],
        result := .ok (), device := dev }

/-- `turnOff()`: if `!this.#device?.opened`, log `'already disconnected.'` and
return; otherwise `fadeToColor([0, 0, 0])`. -/
def turnOff (dev : Option Device) (sendOk : Bool) : CallResult :=
  if isConnected dev = false then
    { trace := [.log "already disconnected."], result := .ok (), device := dev }
  else
    fadeToColor dev sendOk { r := 0, g := 0, b := 0 }

/-- `setColorActive()`: return if `this.#isInAPattern`, else
`fadeToColor(this.#activeColor)`. -/
def setColorActive (isInAPattern : Bool) (dev : Option Device) (sendOk : Bool)
    (activeColor : Rgb) : CallResult :=
  if isInAPattern then { trace := [], result := .ok (), device := dev }
  else fadeToColor dev sendOk activeColor

/-- `setColorBlocked()`: return if `this.#isInAPattern`, else
`fadeToColor(this.#mutedColor)` (the local `acolor = [255, 0, 0]` in the
source is dead). -/
def setColorBlocked (isInAPattern : Bool) (dev : Option Device) (sendOk : Bool)
    (mutedColor : Rgb) : CallResult :=
  if isInAPattern then { trace := [], result := .ok (), device := dev }
  else fadeToColor dev sendOk mutedColor

/-- One awaited step of `signalAtention`: its trace and completion (the device
handle is supplied from outside, so the post-call handle is dropped). -/
def stepOf (r : CallResult) : List Effect × Except JsError Unit :=
  (r.trace, r.result)

/-- Sequencing of two awaited steps: the second runs only if the first
completed normally; a thrown error short-circuits. -/
def seqStep (a b : List Effect × Except JsError Unit) :
    List Effect × Except JsError Unit :=
  match a.2 with
  | .error e => (a.1, .error e)
  | .ok _ => (a.1 ++ b.1, b.2)

/-- `await this.sleep(300)` (the `delay` constant of `signalAtention`). -/
def sleepStep : List Effect × Except JsError Unit :=
  ([.sleep 300], .ok ())

/-- The body of `signalAtention` between the two `#isInAPattern` writes:
fade, sleep, off, sleep, repeated three times, exactly as the source unrolls
it.  `devAt i` is `this.#device` when the i-th device operation runs (the
sleeps are suspension points at which it may change), `sendOkAt i` that
operation's transport outcome, `att` the `acolor = this.#attentionColor` read
once at the top. -/
def signalBody (devAt : Nat → Option BlinkMic.Device) (sendOkAt : Nat → Bool)
    (att : Rgb) : List Effect × Except JsError Unit :=
  seqStep (stepOf (fadeToColor (devAt 0) (sendOkAt 0) att)) (seqStep sleepStep (
  seqStep (stepOf (turnOff (devAt 1) (sendOkAt 1))) (seqStep sleepStep (
  seqStep (stepOf (fadeToColor (devAt 2) (sendOkAt 2) att)) (seqStep sleepStep (
  seqStep (stepOf (turnOff (devAt 3) (sendOkAt 3))) (seqStep sleepStep (
  seqStep (stepOf (fadeToColor (devAt 4) (sendOkAt 4) att)) (seqStep sleepStep (
  seqStep (stepOf (turnOff (devAt 5) (sendOkAt 5))) sleepStep))))))))))

/-- Result of `signalAtention`: trace, completion, and the `#isInAPattern`
flag after the call (it stays `true` when an error escapes the body, since
the source has no `try`/`finally` around it). -/
structure PatternResult where
  trace : List Effect
  result : Except JsError Unit
  isInAPattern : Bool
deriving Repr, DecidableEq

/-- `signalAtention()`: set `#isInAPattern = true`, run the three-pulse body,
and clear the flag only if the body completed normally. -/
def signalAtention (devAt : Nat → Option BlinkMic.Device)
    (sendOkAt : Nat → Bool) (att : Rgb) : PatternResult :=
  let body := signalBody devAt sendOkAt att
  match body.2 with
  | .error e =>
    { trace := .lockSet true :: body.1, result := .error e, isInAPattern := true }
  | .ok _ =>
    { trace := .lockSet true :: body.1 ++ [.lockSet false], result := .ok (),
      isInAPattern := false }

/-- The part of the Meet page the `MeetWrapper` observers query: whether the
three structural markers match, and the mute button
(`none` = no `button[data-mute-button]`; `some a` = button present with
`data-is-muted` attribute `a`, itself `none` when the attribute is absent). -/
structure MeetDom where
  hasMeetingTitle : Bool
  hasLobbyController : Bool
  hasPostMeeting : Bool
  muteButton : Option (Option String)
deriving Repr, DecidableEq

/-- The `muted` test of `checkState`:
`document.querySelector('button[data-mute-button]')?.getAttribute('data-is-muted') == 'true'`
(`undefined == 'true'` and `null == 'true'` are both false). -/
def mutedOf (dom : MeetDom) : Bool :=
  match dom.muteButton with
  | none => false
  | some none => false
  | some (some v) => v == "true"

/-- `MeetWrapper.checkState()`: log, return if `#dontShowMicStatus`, else
dispatch on the mute attribute.  The `setColor*` calls are not awaited, so
`checkState` itself always completes normally; their effects still occur. -/
def checkState (dontShowMicStatus : Bool) (dom : MeetDom) (isInAPattern : Bool)
    (dev : Option BlinkMic.Device) (sendOk : Bool)
    (activeColor mutedColor : Rgb) : CallResult :=
  let sub : CallResult :=
    if dontShowMicStatus then { trace := [], result := .ok (), device := dev }
    else if mutedOf dom then setColorBlocked isInAPattern dev sendOk mutedColor
    else setColorActive isInAPattern dev sendOk activeColor
  { trace := .log "checkState" :: sub.trace, result := .ok (), device := sub.device }

/-- The `bodyObserver` callback of `MeetWrapper`: test the in-meeting marker
`div[data-meeting-title]`, then the lobby marker `[jscontroller=dyDNGc]`,
then the post-meeting marker `[jsname=r4nke]`; first match wins, no match
does nothing. -/
def bodyObserverStep (dontShowMicStatus : Bool) (dom : MeetDom)
    (isInAPattern : Bool) (dev : Option BlinkMic.Device) (sendOk : Bool)
    (activeColor mutedColor : Rgb) : CallResult :=
  if dom.hasMeetingTitle then
    checkState dontShowMicStatus dom isInAPattern dev sendOk activeColor mutedColor
  else if dom.hasLobbyController then
    turnOff dev sendOk
  else if dom.hasPostMeeting then
    turnOff dev sendOk
  else
    { trace := [], result := .ok (), device := dev }

/-- A node passed to the `mutedObserver` callback as an `addedNodes` entry:
whether it is an `HTMLDivElement`, and its `aria-label` attribute. -/
structure InsertedNode where
  isHTMLDivElement : Bool
  ariaLabel : Option String
deriving Repr, DecidableEq

/-- The accessibility label the `mutedObserver` filters on. -/
def mutedAttemptLabel : String := "Are you talking? Your mic is off."

/-- The `mutedObserver` per-node filter:
`n instanceof HTMLDivElement && n.getAttribute('aria-label') === label`. -/
def mutedNodeMatches (n : InsertedNode) : Bool :=
  n.isHTMLDivElement && n.ariaLabel == some mutedAttemptLabel

/-- The `mutedObserver` handler for one added node: if the node matches and
`#dontBlinkIfTryMuted` is false, `await signalAtention()` then
`checkState()`.  `devAt`/`sendOkAt` feed the pattern, the remaining
arguments feed the re-check that runs after the pattern completes. -/
def mutedObserverOnNode (dontBlinkIfTryMuted : Bool) (n : InsertedNode)
    (devAt : Nat → Option BlinkMic.Device) (sendOkAt : Nat → Bool) (att : Rgb)
    (dontShowMicStatus : Bool) (dom : MeetDom)
    (devAfter : Option BlinkMic.Device) (sendOkAfter : Bool)
    (activeColor mutedColor : Rgb) : PatternResult :=
  if mutedNodeMatches n = false then
    { trace := [], result := .ok (), isInAPattern := false }
  else if dontBlinkIfTryMuted then
    { trace := [], result := .ok (), isInAPattern := false }
  else
    let p := signalAtention devAt sendOkAt att
    match p.result with
    | .error e =>
      { trace := .log "signaling muted state" :: p.trace, result := .error e,
        isInAPattern := p.isInAPattern }
    | .ok _ =>
      let c := checkState dontShowMicStatus dom p.isInAPattern devAfter
        sendOkAfter activeColor mutedColor
      { trace := .log "signaling muted state" :: p.trace ++ c.trace,
        result := c.result, isInAPattern := p.isInAPattern }

/-- The environment of a `connect` call: whether `'hid' in navigator`, the
`navigator.hid.getDevices()` list, the (already filter-matched) list a
`navigator.hid.requestDevice` picker would return, and the outcome of
`device.open()`. -/
structure ConnectEnv where
  isSupported : Bool
  authorized : List BlinkMic.Device
  pickerDevices : List BlinkMic.Device
  openFails : Bool
  openError : JsError
deriving Repr, DecidableEq

/-- The blink(1) vendor id `0x27b8`. -/
def blinkVendorId : Nat := 0x27b8

/-- The blink(1) product id `0x01ed`. -/
def blinkProductId : Nat := 0x01ed

/-- `#getPreviousDevice()`: the first entry of `getDevices()` matching the
fixed vendor/product pair, else `null`. -/
def getPreviousDevice (authorized : List BlinkMic.Device) :
    Option BlinkMic.Device :=
  authorized.find? fun d =>
    d.vendorId == blinkVendorId && d.productId == blinkProductId

/-- `#getDevice(showPicker)`: the previously authorized device if any, else
(only when `showPicker`) `requestDevice(...)[0]`, else `null`. -/
def getDevice (env : ConnectEnv) (showPicker : Bool) :
    Option BlinkMic.Device :=
  match getPreviousDevice env.authorized with
  | some d => some d
  | none => if showPicker then env.pickerDevices.head? else none

/-- Result of `connect`: trace, completion carrying the returned boolean,
`#device` afterwards, and whether `device.open()` was called. -/
structure ConnectResult where
  trace : List Effect
  result : Except JsError Bool
  device : Option BlinkMic.Device
  openAttempted : Bool
deriving Repr, DecidableEq

/-- `connect(showPicker)`: throw `'Not supported.'` if HID is unsupported;
assign `#device = #getDevice(showPicker)`; return false if none; return true
at once if already open; otherwise open it, logging and re-throwing an open
failure. -/
def connect (env : ConnectEnv) (dev0 : Option BlinkMic.Device)
    (showPicker : Bool) : ConnectResult :=
  if env.isSupported = false then
    { trace := [], result := .error { name := "Error", message := "Not supported." },
      device := dev0, openAttempted := false }
  else
    match getDevice env showPicker with
    | none =>
      { trace := [], result := .ok false, device := none, openAttempted := false }
    | some d =>
      if d.opened then
        { trace := [.log "Found Blink"], result := .ok true, device := some d,
          openAttempted := false }
      else if env.openFails then
        { trace := [.log "Found Blink", .logError "Error opening HID device"],
          result := .error env.openError, device := some d, openAttempted := true }
      else
        { trace := [.log "Found Blink"], result := .ok true,
          device := some { d with opened := true }, openAttempted := true }

/-- `hex.replace(/^#/, '')`: remove one leading `#` if present. -/
def stripHash (s : String) : String :=
  match s.toList with
  | '#' :: rest => String.mk rest
  | _ => s

/-- JavaScript string whitespace skipped by `parseInt` (ASCII subset; the
extra Unicode space code points never occur in the stored color strings). -/
def isJsSpace (c : Char) : Bool :=
  c = ' ' || c = '\t' || c = '\n' || c = '\r' || c = '\x0b' || c = '\x0c'

/-- The value of one radix-16 digit, as `parseInt` accepts them. -/
def hexDigitVal (c : Char) : Option Nat :=
  if 48 ≤ c.toNat ∧ c.toNat ≤ 57 then some (c.toNat - 48)
  else if 97 ≤ c.toNat ∧ c.toNat ≤ 102 then some (c.toNat - 87)
  else if 65 ≤ c.toNat ∧ c.toNat ≤ 70 then some (c.toNat - 55)
  else none

/-- The longest prefix of radix-16 digits, as digit values. -/
def takeHexDigits : List Char → List Nat
  | [] => []
  | c :: cs =>
    match hexDigitVal c with
    | some v => v :: takeHexDigits cs
    | none => []

/-- The number denoted by a big-endian list of radix-16 digit values. -/
def hexListVal (ds : List Nat) : Nat :=
  ds.foldl (fun a d => 16 * a + d) 0

/-- Stage 1 of `parseInt(s, 16)`: skip leading whitespace. -/
def afterSpace (cs : List Char) : List Char :=
  cs.dropWhile isJsSpace

/-- The sign factor of `parseInt`: `-1` on a leading `-`, else `1`. -/
def signOf (cs : List Char) : Int :=
  if cs.head? = some '-' then -1 else 1

/-- Stage 2 of `parseInt`: consume an optional sign character. -/
def afterSign (cs : List Char) : List Char :=
  if cs.head? = some '-' ∨ cs.head? = some '+' then cs.tail else cs

/-- Stage 3 of `parseInt(s, 16)`: consume an optional `0x`/`0X` prefix. -/
def afterHexMark (cs : List Char) : List Char :=
  if cs.take 2 = ['0', 'x'] ∨ cs.take 2 = ['0', 'X'] then cs.drop 2 else cs

/-- `parseInt(string, 16)` on a character list: skip leading whitespace, an
optional sign, an optional `0x`/`0X` prefix, then the longest run of hex
digits; `none` models the `NaN` result when that run is empty.  Values are
exact integers (see the module header for the binary64 caveat). -/
def parseIntHexChars (cs0 : List Char) : Option Int :=
  if takeHexDigits (afterHexMark (afterSign (afterSpace cs0))) = [] then none
  else some (signOf (afterSpace cs0) *
    (hexListVal (takeHexDigits (afterHexMark (afterSign (afterSpace cs0)))) : Int))

/-- `parseInt(s, 16)`. -/
def parseIntHex (s : String) : Option Int :=
  parseIntHexChars s.toList

/-- `ToUint32`. -/
def jsToUint32 (i : Int) : Int :=
  i % 4294967296

/-- `ToInt32`, the coercion JavaScript applies to both operands of `>>` and
`&`. -/
def jsToInt32 (i : Int) : Int :=
  if jsToUint32 i < 2147483648 then jsToUint32 i else jsToUint32 i - 4294967296

/-- `ToInt32` of a number that may be `NaN` (`ToInt32(NaN) = 0`). -/
def jsNumToInt32 : Option Int → Int
  | none => 0
  | some i => jsToInt32 i

/-- JavaScript `x >> 16`: arithmetic shift of `ToInt32(x)`, i.e. floor
division by 2^16. -/
def jsShr16 (x : Int) : Int :=
  jsToInt32 x / 65536

/-- JavaScript `x >> 8`. -/
def jsShr8 (x : Int) : Int :=
  jsToInt32 x / 256

/-- JavaScript `x & 255`: the low byte of the two's-complement pattern of
`ToInt32(x)`, always in `[0, 255]`. -/
def jsAnd255 (x : Int) : Nat :=
  (jsToInt32 x % 256).toNat

/-- `hexToRgbArray(hex)`: `undefined` maps to `undefined`; otherwise strip a
leading `#`, `bigint = parseInt(hex, 16)`, and return
`[(bigint >> 16) & 255, (bigint >> 8) & 255, bigint & 255]`. -/
def hexToRgbArray : Option String → Option Rgb
  | none => none
  | some hex0 =>
    let hex := stripHash hex0
    let bigint := parseIntHex hex
    some { r := jsAnd255 (jsShr16 (jsNumToInt32 bigint))
         , g := jsAnd255 (jsShr8 (jsNumToInt32 bigint))
         , b := jsAnd255 (jsNumToInt32 bigint) }

/-- A string that is exactly six radix-16 digits after stripping an optional
leading `#`: the well-formed input class of the codec. -/
def validHex6 (s : String) : Bool :=
  let cs := (stripHash s).toList
  cs.length = 6 && cs.all fun c => (hexDigitVal c).isSome

/-- The number a well-formed color string denotes: the value of its digit
run after stripping the optional `#`. -/
def hexValue6 (s : String) : Nat :=
  hexListVal (takeHexDigits (stripHash s).toList)

/-! ### Helper lemmas -/

theorem fadeToColor_device (dev : Option Device) (sendOk : Bool) (c : Rgb) :
    (fadeToColor dev sendOk c).device = dev := by
  cases h : isConnected dev <;> cases sendOk <;>
    simp [fadeToColor, readyOrThrow, h]

theorem fadeToColor_result_of_conn {dev : Option Device} (sendOk : Bool) (c : Rgb)
    (h : isConnected dev = true) : (fadeToColor dev sendOk c).result = .ok () := by
  cases sendOk <;> simp [fadeToColor, readyOrThrow, h]

theorem fadeToColor_of_disc {dev : Option Device} (sendOk : Bool) (c : Rgb)
    (h : isConnected dev = false) :
    fadeToColor dev sendOk c =
      { trace := [], result := .error { name := "Blink", message := "Not connected." },
        device := dev } := by
  simp [fadeToColor, readyOrThrow, h]

theorem turnOff_result (dev : Option Device) (sendOk : Bool) :
    (turnOff dev sendOk).result = .ok () := by
  cases h : isConnected dev <;> cases sendOk <;>
    simp [turnOff, fadeToColor, readyOrThrow, h]

theorem stepOf_fst (r : CallResult) : (stepOf r).1 = r.trace := rfl

theorem stepOf_snd (r : CallResult) : (stepOf r).2 = r.result := rfl

theorem seqStep_ok {a b : List Effect × Except JsError Unit} (h : a.2 = .ok ()) :
    seqStep a b = (a.1 ++ b.1, b.2) := by
  simp [seqStep, h]

theorem seqStep_error {a b : List Effect × Except JsError Unit} {e : JsError}
    (h : a.2 = .error e) : seqStep a b = (a.1, .error e) := by
  simp [seqStep, h]

theorem seqStep_snd (a b : List Effect × Except JsError Unit) :
    (seqStep a b).2 = match a.2 with
      | .error e => .error e
      | .ok _ => b.2 := by
  rcases h : a.2 with e | ⟨⟩ <;> simp [seqStep, h]

theorem seqStep_forall {P : Effect → Prop} {a b : List Effect × Except JsError Unit}
    (ha : ∀ e ∈ a.1, P e) (hb : ∀ e ∈ b.1, P e) :
    ∀ e ∈ (seqStep a b).1, P e := by
  intro e he
  rcases h : a.2 with e2 | ⟨⟩
  · rw [seqStep_error h] at he
    exact ha e he
  · rw [seqStep_ok h] at he
    rcases List.mem_append.1 he with h1 | h1
    · exact ha e h1
    · exact hb e h1

/-- Effects a pattern body can emit: no `#isInAPattern` write, and none of
the logs that other parts of the wrapper emit. -/
def benign (e : Effect) : Prop :=
  e.isLock = false ∧ e ≠ .log "checkState"

theorem fadeToColor_benign (dev : Option Device) (sendOk : Bool) (c : Rgb) :
    ∀ e ∈ (fadeToColor dev sendOk c).trace, benign e := by
  cases h : isConnected dev <;> cases sendOk <;>
    simp [fadeToColor, readyOrThrow, h, benign, Effect.isLock]

theorem turnOff_benign (dev : Option Device) (sendOk : Bool) :
    ∀ e ∈ (turnOff dev sendOk).trace, benign e := by
  cases h : isConnected dev <;> cases sendOk <;>
    simp [turnOff, fadeToColor, readyOrThrow, h, benign, Effect.isLock]

theorem sleepStep_benign : ∀ e ∈ sleepStep.1, benign e := by
  simp [sleepStep, benign, Effect.isLock]

theorem signalBody_benign (devAt : Nat → Option Device) (sendOkAt : Nat → Bool)
    (att : Rgb) : ∀ e ∈ (signalBody devAt sendOkAt att).1, benign e := by
  unfold signalBody
  repeat
    first
    | exact sleepStep_benign
    | exact fadeToColor_benign _ _ _
    | exact turnOff_benign _ _
    | apply seqStep_forall

theorem checkState_result (a : Bool) (dom : MeetDom) (lock : Bool)
    (dev : Option Device) (s : Bool) (ac mc : Rgb) :
    (checkState a dom lock dev s ac mc).result = .ok () := rfl

theorem signalAtention_open (d : Device) (hd : d.opened = true) (att : Rgb) :
    signalAtention (fun _ => some d) (fun _ => true) att =
      { trace := [.lockSet true,
          .sendFeatureReport 1 (fadePayload att), .sleep 300,
          .sendFeatureReport 1 (fadePayload { r := 0, g := 0, b := 0 }), .sleep 300,
          .sendFeatureReport 1 (fadePayload att), .sleep 300,
          .sendFeatureReport 1 (fadePayload { r := 0, g := 0, b := 0 }), .sleep 300,
          .sendFeatureReport 1 (fadePayload att), .sleep 300,
          .sendFeatureReport 1 (fadePayload { r := 0, g := 0, b := 0 }), .sleep 300,
          .lockSet false],
        result := .ok (), isInAPattern := false } := by
  simp [signalAtention, signalBody, seqStep, stepOf, sleepStep, fadeToColor,
    turnOff, readyOrThrow, isConnected, hd]

/-! ### Claim C1 -/

/-- Claim C1: `fadeToColor([r, g, b])` with the device absent or not open
throws the error named `Blink` with message `Not connected.`, sends nothing
and leaves the device handle unchanged; with the device open it always
builds the payload `[0x63, r, g, b, 0x00, 0x10, 0x00, 0x00]` and attempts
the feature report with report id 1, and a transport failure is only
logged (the call still completes normally, handle unchanged). -/
theorem fadeToColor_contract (dev : Option Device) (sendOk : Bool) (c : Rgb)
    (hr : c.r ≤ 255) (hg : c.g ≤ 255) (hb : c.b ≤ 255) :
    (isConnected dev = false →
      fadeToColor dev sendOk c =
        { trace := [],
          result := .error { name := "Blink", message := "Not connected." },
          device := dev }) ∧
    (isConnected dev = true →
      (fadeToColor dev sendOk c).result = .ok () ∧
      (fadeToColor dev sendOk c).device = dev ∧
      (fadeToColor dev sendOk c).trace =
        .sendFeatureReport 1 [0x63, c.r, c.g, c.b, 0x00, 0x10, 0x00, 0x00] ::
          (if sendOk then [] else [.logError "fadeToColor: failed:"])) := by
  have hp : fadePayload c = [0x63, c.r, c.g, c.b, 0x00, 0x10, 0x00, 0x00] := by
    simp only [fadePayload, Nat.mod_eq_of_lt (by omega : c.r < 256),
      Nat.mod_eq_of_lt (by omega : c.g < 256), Nat.mod_eq_of_lt (by omega : c.b < 256)]
  constructor
  · intro h
    exact fadeToColor_of_disc sendOk c h
  · intro h
    refine ⟨fadeToColor_result_of_conn sendOk c h, fadeToColor_device dev sendOk c, ?_⟩
    cases sendOk <;> simp [fadeToColor, readyOrThrow, h, hp]

/-- Witness for C1: an open device and the color `(0, 255, 0)` with a
successful transport. -/
theorem fadeToColor_contract_witness :
    (fadeToColor (some { opened := true, vendorId := 10168, productId := 493 })
        true { r := 0, g := 255, b := 0 }).trace =
      [.sendFeatureReport 1 [0x63, 0, 255, 0, 0x00, 0x10, 0x00, 0x00]] := by
  have h := fadeToColor_contract
      (some { opened := true, vendorId := 10168, productId := 493 }) true
      { r := 0, g := 255, b := 0 } (by decide) (by decide) (by decide)
  simpa using (h.2 (by decide)).2.2

/-! ### Claim C6 -/

/-- Claim C6: `turnOff` never throws; when the device is absent or closed it
only logs and sends nothing, leaving the handle unchanged (so repeated
closed calls are idempotent no-ops); when the device is open it is exactly
`fadeToColor([0, 0, 0])`. -/
theorem turnOff_contract (dev : Option Device) (sendOk : Bool) :
    (turnOff dev sendOk).result = .ok () ∧
    (isConnected dev = false →
      turnOff dev sendOk =
        { trace := [.log "already disconnected."], result := .ok (), device := dev }) ∧
    (isConnected dev = true →
      turnOff dev sendOk = fadeToColor dev sendOk { r := 0, g := 0, b := 0 }) := by
  refine ⟨turnOff_result dev sendOk, ?_, ?_⟩
  · intro h
    simp [turnOff, h]
  · intro h
    simp [turnOff, h]

/-! ### Claim C2 -/

/-- Claim C2: while `#isInAPattern` is true, `setColorActive` and
`setColorBlocked` return without issuing any fade; `signalAtention` holds
the lock from its start (first trace entry) to after its final wait (the
lock is released only at the very end of a successful run, with no lock
write in between), and once the lock clears the mute-state re-check issues
the fade matching the current mute state. -/
theorem patternLock_contract :
    (∀ (dev : Option Device) (sendOk : Bool) (c : Rgb),
      setColorActive true dev sendOk c =
        { trace := [], result := .ok (), device := dev }) ∧
    (∀ (dev : Option Device) (sendOk : Bool) (c : Rgb),
      setColorBlocked true dev sendOk c =
        { trace := [], result := .ok (), device := dev }) ∧
    (∀ (devAt : Nat → Option Device) (sendOkAt : Nat → Bool) (att : Rgb),
      (signalAtention devAt sendOkAt att).result = .ok () →
        (signalAtention devAt sendOkAt att).isInAPattern = false ∧
        ∃ mid, (signalAtention devAt sendOkAt att).trace =
            .lockSet true :: mid ++ [.lockSet false] ∧
          ∀ e ∈ mid, e.isLock = false) ∧
    (∀ (dom : MeetDom) (dev : Option Device) (sendOk : Bool) (ac mc : Rgb),
      checkState false dom false dev sendOk ac mc =
        { trace := .log "checkState" ::
            (fadeToColor dev sendOk (if mutedOf dom then mc else ac)).trace,
          result := .ok (), device := dev }) := by
  refine ⟨?_, ?_, ?_, ?_⟩
  · intro dev sendOk c
    simp [setColorActive]
  · intro dev sendOk c
    simp [setColorBlocked]
  · intro devAt sendOkAt att h
    rcases hb : (signalBody devAt sendOkAt att).2 with e | ⟨⟩
    · rw [signalAtention] at h
      simp [hb] at h
    · refine ⟨by simp [signalAtention, hb], (signalBody devAt sendOkAt att).1, ?_, ?_⟩
      · simp [signalAtention, hb]
      · intro e he
        exact (signalBody_benign devAt sendOkAt att e he).1
  · intro dom dev sendOk ac mc
    cases h : mutedOf dom <;>
      simp [checkState, h, setColorActive, setColorBlocked, fadeToColor_device]

/-! ### Claim C4 -/

/-- Claim C4: the presence observer classifies by testing the in-meeting
marker, then the lobby marker, then the post-meeting marker, first match
winning (so the in-meeting branch is taken even when the post-meeting
marker is also present); in-meeting runs the mute-state check, lobby and
post-meeting each call `turnOff`, and no marker means nothing happens. -/
theorem bodyObserver_priority (dms : Bool) (dom : MeetDom) (lock : Bool)
    (dev : Option Device) (sendOk : Bool) (ac mc : Rgb) :
    (dom.hasMeetingTitle = true →
      bodyObserverStep dms dom lock dev sendOk ac mc =
        checkState dms dom lock dev sendOk ac mc) ∧
    (dom.hasMeetingTitle = false → dom.hasLobbyController = true →
      bodyObserverStep dms dom lock dev sendOk ac mc = turnOff dev sendOk) ∧
    (dom.hasMeetingTitle = false → dom.hasLobbyController = false →
      dom.hasPostMeeting = true →
      bodyObserverStep dms dom lock dev sendOk ac mc = turnOff dev sendOk) ∧
    (dom.hasMeetingTitle = false → dom.hasLobbyController = false →
      dom.hasPostMeeting = false →
      bodyObserverStep dms dom lock dev sendOk ac mc =
        { trace := [], result := .ok (), device := dev }) := by
  refine ⟨?_, ?_, ?_, ?_⟩ <;> intros <;> simp [bodyObserverStep, *]

/-! ### Claim C5 -/

/-- Claim C5: `checkState` does nothing (beyond its log) when the
dont-show-mic-status setting is true; otherwise it requests the muted color
exactly when the mute button attribute equals the string `true`, else the
active color; with active `#00ff00`, muted `#ff0000`, an open device and no
pattern running, the unmuted check sends `[0x63,0,255,0,0,0x10,0,0]` and
the muted check sends `[0x63,255,0,0,0,0x10,0,0]`. -/
theorem checkState_contract :
    (∀ (dom : MeetDom) (lock : Bool) (dev : Option Device) (sendOk : Bool) (ac mc : Rgb),
      checkState true dom lock dev sendOk ac mc =
        { trace := [.log "checkState"], result := .ok (), device := dev }) ∧
    (∀ (dom : MeetDom) (lock : Bool) (dev : Option Device) (sendOk : Bool) (ac mc : Rgb),
      checkState false dom lock dev sendOk ac mc =
        { trace := .log "checkState" ::
            (if mutedOf dom then setColorBlocked lock dev sendOk mc
             else setColorActive lock dev sendOk ac).trace,
          result := .ok (),
          device := (if mutedOf dom then setColorBlocked lock dev sendOk mc
             else setColorActive lock dev sendOk ac).device }) ∧
    (∀ dom : MeetDom, mutedOf dom = (dom.muteButton == some (some "true"))) ∧
    hexToRgbArray (some "#00ff00") = some { r := 0, g := 255, b := 0 } ∧
    hexToRgbArray (some "#ff0000") = some { r := 255, g := 0, b := 0 } ∧
    checkState false { hasMeetingTitle := true, hasLobbyController := false, hasPostMeeting := false, muteButton := some (some "false") } false (some { opened := true, vendorId := 10168, productId := 493 }) true { r := 0, g := 255, b := 0 } { r := 255, g := 0, b := 0 } =
      { trace := [.log "checkState", .sendFeatureReport 1 [0x63, 0, 255, 0, 0x00, 0x10, 0x00, 0x00]], result := .ok (), device := some { opened := true, vendorId := 10168, productId := 493 } } ∧
    checkState false { hasMeetingTitle := true, hasLobbyController := false, hasPostMeeting := false, muteButton := some (some "true") } false (some { opened := true, vendorId := 10168, productId := 493 }) true { r := 0, g := 255, b := 0 } { r := 255, g := 0, b := 0 } =
      { trace := [.log "checkState", .sendFeatureReport 1 [0x63, 255, 0, 0, 0x00, 0x10, 0x00, 0x00]], result := .ok (), device := some { opened := true, vendorId := 10168, productId := 493 } } := by
  refine ⟨?_, ?_, ?_, by decide, by decide, by decide, by decide⟩
  · intro dom lock dev sendOk ac mc
    simp [checkState]
  · intro dom lock dev sendOk ac mc
    cases h : mutedOf dom <;> simp [checkState, h]
  · intro dom
    rcases dom with ⟨t, l, p, (_ | (_ | v))⟩ <;> simp [mutedOf]

/-! ### Claim C7 -/

/-- Claim C7: `connect` throws `Not supported.` when the HID API is absent;
otherwise device acquisition tries the previously authorized list for the
`0x27b8`/`0x01ed` pair first and consults the picker only when that fails
and `showPicker` is set; no device gives `false` without throwing, an
already-open device gives `true` with no open attempt, and a failing open
of a closed device is logged and re-thrown. -/
theorem connect_contract (env : ConnectEnv) (dev0 : Option Device) (showPicker : Bool) :
    (env.isSupported = false →
      connect env dev0 showPicker =
        { trace := [], result := .error { name := "Error", message := "Not supported." },
          device := dev0, openAttempted := false }) ∧
    (∀ d, getPreviousDevice env.authorized = some d →
      getDevice env showPicker = some d) ∧
    (getPreviousDevice env.authorized = none →
      getDevice env showPicker =
        if showPicker then env.pickerDevices.head? else none) ∧
    (env.isSupported = true → getDevice env showPicker = none →
      connect env dev0 showPicker =
        { trace := [], result := .ok false, device := none, openAttempted := false }) ∧
    (∀ d, env.isSupported = true → getDevice env showPicker = some d →
      d.opened = true →
      connect env dev0 showPicker =
        { trace := [.log "Found Blink"], result := .ok true, device := some d,
          openAttempted := false }) ∧
    (∀ d, env.isSupported = true → getDevice env showPicker = some d →
      d.opened = false → env.openFails = true →
      (connect env dev0 showPicker).result = .error env.openError ∧
      (connect env dev0 showPicker).trace =
        [.log "Found Blink", .logError "Error opening HID device"]) := by
  refine ⟨?_, ?_, ?_, ?_, ?_, ?_⟩
  · intro h
    simp [connect, h]
  · intro d h
    simp [getDevice, h]
  · intro h
    simp [getDevice, h]
  · intro h1 h2
    simp [connect, h1, h2]
  · intro d h1 h2 h3
    simp [connect, h1, h2, h3]
  · intro d h1 h2 h3 h4
    simp [connect, h1, h2, h3, h4]

/-! ### Claim C3 -/

/-- Claim C3: when a mute-attempt labelled div is inserted and the
dont-blink-if-try-muted setting is false, the handler runs: lock set, three
repetitions of (fade to the attention color, wait 300 ms, fade to off,
wait 300 ms), lock cleared, then exactly one mute-state re-check; when the
setting is true, neither the pattern nor the re-check runs. -/
theorem attention_sequence (n : InsertedNode) (hn : mutedNodeMatches n = true)
    (d : Device) (hd : d.opened = true) (att ac mc : Rgb) (dms : Bool)
    (dom : MeetDom) (devAfter : Option Device) (sendOkAfter : Bool) :
    mutedObserverOnNode false n (fun _ => some d) (fun _ => true) att dms dom devAfter sendOkAfter ac mc =
      { trace := .log "signaling muted state" :: .lockSet true ::
          [.sendFeatureReport 1 (fadePayload att), .sleep 300,
           .sendFeatureReport 1 (fadePayload { r := 0, g := 0, b := 0 }), .sleep 300,
           .sendFeatureReport 1 (fadePayload att), .sleep 300,
           .sendFeatureReport 1 (fadePayload { r := 0, g := 0, b := 0 }), .sleep 300,
           .sendFeatureReport 1 (fadePayload att), .sleep 300,
           .sendFeatureReport 1 (fadePayload { r := 0, g := 0, b := 0 }), .sleep 300,
           .lockSet false] ++
          (checkState dms dom false devAfter sendOkAfter ac mc).trace,
        result := .ok (), isInAPattern := false } ∧
    (∀ (devAt : Nat → Option Device) (sendOkAt : Nat → Bool),
      mutedObserverOnNode true n devAt sendOkAt att dms dom devAfter sendOkAfter ac mc =
        { trace := [], result := .ok (), isInAPattern := false }) := by
  constructor
  · simp [mutedObserverOnNode, hn, signalAtention_open d hd att, checkState_result]
  · intro devAt sendOkAt
    simp [mutedObserverOnNode, hn]

/-- Witness for C3: a matching inserted div, an open device, attention color
`(255, 0, 0)`. -/
theorem attention_sequence_witness :
    (mutedObserverOnNode false { isHTMLDivElement := true, ariaLabel := some mutedAttemptLabel } (fun _ => some { opened := true, vendorId := 10168, productId := 493 }) (fun _ => true) { r := 255, g := 0, b := 0 } false { hasMeetingTitle := true, hasLobbyController := false, hasPostMeeting := false, muteButton := some (some "false") } (some { opened := true, vendorId := 10168, productId := 493 }) true { r := 0, g := 255, b := 0 } { r := 255, g := 0, b := 0 }).isInAPattern = false := by
  have h := attention_sequence
      { isHTMLDivElement := true, ariaLabel := some mutedAttemptLabel } (by decide)
      { opened := true, vendorId := 10168, productId := 493 } rfl
      { r := 255, g := 0, b := 0 } { r := 0, g := 255, b := 0 } { r := 255, g := 0, b := 0 }
      false
      { hasMeetingTitle := true, hasLobbyController := false, hasPostMeeting := false, muteButton := some (some "false") }
      (some { opened := true, vendorId := 10168, productId := 493 }) true
  rw [h.1]

/-! ### Claim C9 -/

/-- Claim C9: if the device is not open when a fade step of `signalAtention`
runs (every earlier fade step having seen an open device; the intervening
`turnOff` steps never throw, whatever they see), the `Blink`/`Not
connected.` error propagates out of `signalAtention` with `#isInAPattern`
left true forever: the trace never clears the lock, the mute-state re-check
of the mute-attempt handler never runs, and every later `setColorActive` or
`setColorBlocked` call returns without effect. -/
theorem pattern_error_keeps_lock (devAt : Nat → Option Device)
    (sendOkAt : Nat → Bool) (att : Rgb) (i : Nat) (hi : i < 6) (hev : i % 2 = 0)
    (hpre : ∀ j, j < i → j % 2 = 0 → isConnected (devAt j) = true)
    (hfail : isConnected (devAt i) = false) :
    (signalAtention devAt sendOkAt att).result =
      .error { name := "Blink", message := "Not connected." } ∧
    (signalAtention devAt sendOkAt att).isInAPattern = true ∧
    (∀ e ∈ (signalAtention devAt sendOkAt att).trace, e ≠ .lockSet false) ∧
    (∀ (n : InsertedNode) (dms : Bool) (dom : MeetDom)
        (devAfter : Option Device) (sendOkAfter : Bool) (ac mc : Rgb),
      mutedNodeMatches n = true →
        (mutedObserverOnNode false n devAt sendOkAt att dms dom devAfter sendOkAfter ac mc).result =
          .error { name := "Blink", message := "Not connected." } ∧
        (mutedObserverOnNode false n devAt sendOkAt att dms dom devAfter sendOkAfter ac mc).isInAPattern = true ∧
        ∀ e ∈ (mutedObserverOnNode false n devAt sendOkAt att dms dom devAfter sendOkAfter ac mc).trace,
          e ≠ .log "checkState") ∧
    (∀ (dev : Option Device) (sendOk : Bool) (c : Rgb),
      setColorActive true dev sendOk c = { trace := [], result := .ok (), device := dev } ∧
      setColorBlocked true dev sendOk c = { trace := [], result := .ok (), device := dev }) := by
  have hbody : (signalBody devAt sendOkAt att).2 =
      .error { name := "Blink", message := "Not connected." } := by
    interval_cases i
    · simp [signalBody, seqStep_snd, stepOf_snd, sleepStep,
        fadeToColor_of_disc (sendOkAt 0) att hfail]
    · omega
    · simp [signalBody, seqStep_snd, stepOf_snd, sleepStep,
        fadeToColor_result_of_conn (sendOkAt 0) att (hpre 0 (by omega) (by omega)),
        turnOff_result, fadeToColor_of_disc (sendOkAt 2) att hfail]
    · omega
    · simp [signalBody, seqStep_snd, stepOf_snd, sleepStep,
        fadeToColor_result_of_conn (sendOkAt 0) att (hpre 0 (by omega) (by omega)),
        fadeToColor_result_of_conn (sendOkAt 2) att (hpre 2 (by omega) (by omega)),
        turnOff_result, fadeToColor_of_disc (sendOkAt 4) att hfail]
    · omega
  have hs : signalAtention devAt sendOkAt att =
      { trace := .lockSet true :: (signalBody devAt sendOkAt att).1,
        result := .error { name := "Blink", message := "Not connected." },
        isInAPattern := true } := by
    simp [signalAtention, hbody]
  have htr : ∀ e ∈ .lockSet true :: (signalBody devAt sendOkAt att).1,
      e ≠ Effect.lockSet false ∧ e ≠ Effect.log "checkState" := by
    intro e he
    rcases List.mem_cons.1 he with rfl | h1
    · simp
    · have hb := signalBody_benign devAt sendOkAt att e h1
      refine ⟨?_, hb.2⟩
      intro hcontra
      rw [hcontra] at hb
      simp [benign, Effect.isLock] at hb
  refine ⟨by rw [hs], by rw [hs], ?_, ?_, ?_⟩
  · intro e he
    rw [hs] at he
    exact (htr e he).1
  · intro n dms dom devAfter sendOkAfter ac mc hn
    have hh : mutedObserverOnNode false n devAt sendOkAt att dms dom devAfter sendOkAfter ac mc =
        { trace := .log "signaling muted state" :: .lockSet true ::
            (signalBody devAt sendOkAt att).1,
          result := .error { name := "Blink", message := "Not connected." },
          isInAPattern := true } := by
      simp [mutedObserverOnNode, hn, hs]
    refine ⟨by rw [hh], by rw [hh], ?_⟩
    intro e he
    rw [hh] at he
    rcases List.mem_cons.1 he with rfl | h1
    · simp
    · exact (htr e h1).2
  · intro dev sendOk c
    exact ⟨by simp [setColorActive], by simp [setColorBlocked]⟩

/-- Witness for C9: the device closes during the first inter-pulse wait, so
the `turnOff` at step 1 silently no-ops and the fade at step 2 throws,
leaving the lock set. -/
theorem pattern_error_keeps_lock_witness :
    (signalAtention (fun j => some { opened := decide (j < 1), vendorId := 10168, productId := 493 }) (fun _ => true) { r := 1, g := 2, b := 3 }).isInAPattern = true := by
  have h := pattern_error_keeps_lock
      (fun j => some { opened := decide (j < 1), vendorId := 10168, productId := 493 })
      (fun _ => true) { r := 1, g := 2, b := 3 } 2 (by omega) (by omega)
      (fun j hj hje => by
        have hj0 : j = 0 := by omega
        subst hj0
        decide)
      (by decide)
  exact h.2.1

/-! ### Claim C10 -/

theorem jsAnd255_le (x : Int) : jsAnd255 x ≤ 255 := by
  unfold jsAnd255
  omega

/-- Claim C10: for every defined string input whatsoever, `hexToRgbArray`
returns a triple of channels in `[0, 255]` — the `& 255` masks force
out-of-range and `NaN` parses into range — and a string with no parseable
hex digits yields `[0, 0, 0]`. -/
theorem hexToRgbArray_range (s : String) :
    ∃ c : Rgb, hexToRgbArray (some s) = some c ∧
      c.r ≤ 255 ∧ c.g ≤ 255 ∧ c.b ≤ 255 ∧
      (parseIntHex (stripHash s) = none → c = { r := 0, g := 0, b := 0 }) := by
  refine ⟨_, rfl, jsAnd255_le _, jsAnd255_le _, jsAnd255_le _, ?_⟩
  intro h
  rw [h]
  decide

/-- Witness for C10 at the digit-free string `zz`. -/
theorem hexToRgbArray_range_witness :
    hexToRgbArray (some "zz") = some { r := 0, g := 0, b := 0 } := by
  obtain ⟨c, hc, h1, h2, h3, h0⟩ := hexToRgbArray_range "zz"
  rw [hc, h0 (by decide)]

/-! ### Claim C8 -/

theorem hexDigitVal_lt {c : Char} {d : Nat} (h : hexDigitVal c = some d) :
    d < 16 := by
  unfold hexDigitVal at h
  split_ifs at h with h1 h2 h3
  · injection h with h
    omega
  · injection h with h
    omega
  · injection h with h
    omega

theorem isSome_hexDigit_not_space {c : Char}
    (h : (hexDigitVal c).isSome = true) : isJsSpace c = false := by
  by_contra hs
  rw [Bool.not_eq_false] at hs
  simp only [isJsSpace, Bool.or_eq_true, decide_eq_true_eq] at hs
  rcases hs with ((((rfl | rfl) | rfl) | rfl) | rfl) | rfl <;> exact absurd h (by decide)

theorem isSome_hexDigit_ne {c : Char} (h : (hexDigitVal c).isSome = true) :
    c ≠ '-' ∧ c ≠ '+' ∧ c ≠ 'x' ∧ c ≠ 'X' := by
  refine ⟨?_, ?_, ?_, ?_⟩ <;> rintro rfl <;> exact absurd h (by decide)

theorem afterSpace_digits (c1 : Char) (rest : List Char)
    (h1 : (hexDigitVal c1).isSome = true) :
    afterSpace (c1 :: rest) = c1 :: rest := by
  simp [afterSpace, List.dropWhile_cons, isSome_hexDigit_not_space h1]

theorem signOf_digits (c1 : Char) (rest : List Char)
    (h1 : (hexDigitVal c1).isSome = true) : signOf (c1 :: rest) = 1 := by
  have hne := isSome_hexDigit_ne h1
  simp [signOf, hne.1]

theorem afterSign_digits (c1 : Char) (rest : List Char)
    (h1 : (hexDigitVal c1).isSome = true) :
    afterSign (c1 :: rest) = c1 :: rest := by
  have hne := isSome_hexDigit_ne h1
  simp [afterSign, hne.1, hne.2.1]

theorem afterHexMark_digits (c1 : Char) (rest : List Char)
    (h : ∀ c ∈ c1 :: rest, (hexDigitVal c).isSome = true) :
    afterHexMark (c1 :: rest) = c1 :: rest := by
  cases rest with
  | nil => simp [afterHexMark]
  | cons c2 rest2 =>
    have h2 := isSome_hexDigit_ne (h c2 (by simp))
    simp [afterHexMark, h2.2.2.1, h2.2.2.2]

theorem parseIntHexChars_all_digits (c1 : Char) (rest : List Char)
    (h : ∀ c ∈ c1 :: rest, (hexDigitVal c).isSome = true) :
    parseIntHexChars (c1 :: rest) =
      some ((hexListVal (takeHexDigits (c1 :: rest)) : Nat) : Int) := by
  have h1 := h c1 (by simp)
  obtain ⟨d1, hd1⟩ := Option.isSome_iff_exists.mp h1
  unfold parseIntHexChars
  rw [afterSpace_digits c1 rest h1, afterSign_digits c1 rest h1,
    afterHexMark_digits c1 rest h, signOf_digits c1 rest h1]
  rw [if_neg (by simp [takeHexDigits, hd1])]
  simp

theorem takeHexDigits_all (cs : List Char)
    (h : ∀ c ∈ cs, (hexDigitVal c).isSome = true) :
    (takeHexDigits cs).length = cs.length ∧ ∀ d ∈ takeHexDigits cs, d < 16 := by
  induction cs with
  | nil => simp [takeHexDigits]
  | cons c cs ih =>
    obtain ⟨d, hd⟩ := Option.isSome_iff_exists.mp (h c (by simp))
    obtain ⟨ih1, ih2⟩ := ih fun x hx => h x (List.mem_cons_of_mem _ hx)
    refine ⟨by simp [takeHexDigits, hd, ih1], ?_⟩
    intro x hx
    simp only [takeHexDigits, hd] at hx
    rcases List.mem_cons.1 hx with rfl | hx2
    · exact hexDigitVal_lt hd
    · exact ih2 x hx2

theorem hexListVal_foldl_lt (ds : List Nat) (h : ∀ d ∈ ds, d < 16) (a : Nat) :
    ds.foldl (fun x d => 16 * x + d) a < 16 ^ ds.length * (a + 1) := by
  induction ds generalizing a with
  | nil => simp
  | cons d ds ih =>
    have hd : d < 16 := h d (by simp)
    have hrec := ih (fun x hx => h x (List.mem_cons_of_mem _ hx)) (16 * a + d)
    refine lt_of_lt_of_le hrec ?_
    calc 16 ^ ds.length * (16 * a + d + 1)
        ≤ 16 ^ ds.length * (16 * (a + 1)) := Nat.mul_le_mul_left _ (by omega)
      _ = 16 ^ (ds.length + 1) * (a + 1) := by ring

theorem jsToInt32_small (m : Nat) (hm : m < 16777216) :
    jsToInt32 (m : Int) = (m : Int) := by
  unfold jsToInt32 jsToUint32
  split_ifs <;> omega

theorem jsAnd255_small (m : Nat) (hm : m < 16777216) :
    jsAnd255 (m : Int) = m % 256 := by
  unfold jsAnd255
  rw [jsToInt32_small m hm]
  omega

theorem codec_small (n : Nat) (hn : n < 16777216) :
    jsAnd255 (jsShr16 (jsNumToInt32 (some (n : Int)))) = n / 65536 ∧
    jsAnd255 (jsShr8 (jsNumToInt32 (some (n : Int)))) = n / 256 % 256 ∧
    jsAnd255 (jsNumToInt32 (some (n : Int))) = n % 256 := by
  have hnum : jsNumToInt32 (some (n : Int)) = (n : Int) := by
    simp [jsNumToInt32, jsToInt32_small n hn]
  refine ⟨?_, ?_, ?_⟩
  · rw [hnum, show jsShr16 (n : Int) = ((n / 65536 : Nat) : Int) from by
      unfold jsShr16; rw [jsToInt32_small n hn]; omega]
    rw [jsAnd255_small _ (by omega)]
    omega
  · rw [hnum, show jsShr8 (n : Int) = ((n / 256 : Nat) : Int) from by
      unfold jsShr8; rw [jsToInt32_small n hn]; omega]
    rw [jsAnd255_small _ (by omega)]
  · rw [hnum, jsAnd255_small n hn]

/-- Claim C8: `hexToRgbArray(undefined)` is `undefined`, and on every string
that is six hex digits after an optional leading `#`, the channels are
exactly the three bytes of the 24-bit number the string parses to. -/
theorem hexToRgbArray_roundtrip (s : String) (h : validHex6 s = true) :
    hexValue6 s < 16777216 ∧
    hexToRgbArray (some s) =
      some { r := hexValue6 s / 65536, g := hexValue6 s / 256 % 256,
             b := hexValue6 s % 256 } ∧
    hexToRgbArray none = none := by
  unfold validHex6 at h
  rw [Bool.and_eq_true] at h
  obtain ⟨hlen, hall⟩ := h
  rw [decide_eq_true_eq] at hlen
  have hall' : ∀ c ∈ (stripHash s).toList, (hexDigitVal c).isSome = true :=
    fun c hc => List.all_eq_true.mp hall c hc
  obtain ⟨c1, rest, hcs⟩ : ∃ c1 rest, (stripHash s).toList = c1 :: rest := by
    cases hx : (stripHash s).toList with
    | nil => rw [hx] at hlen; simp at hlen
    | cons a l => exact ⟨a, l, rfl⟩
  have hparse : parseIntHex (stripHash s) = some ((hexValue6 s : Nat) : Int) := by
    unfold parseIntHex hexValue6
    rw [hcs]
    exact parseIntHexChars_all_digits c1 rest (by rw [← hcs]; exact hall')
  obtain ⟨hdl, hdlt⟩ := takeHexDigits_all (stripHash s).toList hall'
  have hn : hexValue6 s < 16777216 := by
    have hb := hexListVal_foldl_lt (takeHexDigits (stripHash s).toList) hdlt 0
    rw [hdl, hlen] at hb
    unfold hexValue6 hexListVal
    norm_num at hb
    exact hb
  refine ⟨hn, ?_, rfl⟩
  obtain ⟨e1, e2, e3⟩ := codec_small (hexValue6 s) hn
  simp only [hexToRgbArray]
  rw [hparse, e1, e2, e3]

/-- Witness for C8 at the string `#123456`. -/
theorem hexToRgbArray_roundtrip_witness :
    hexToRgbArray (some "#123456") = some { r := 18, g := 52, b := 86 } := by
  have h := hexToRgbArray_roundtrip "#123456" (by decide)
  rw [h.2.1, show hexValue6 "#123456" = 1193046 from by decide]

end BlinkMic
